import Mathlib

/-!
Verification of the Jamflow chat backend.

This file gives a shallow embedding of the Express/Prisma chat controller
(`getChat`, `updateChat`, `deleteChat`, `shareChat`, `unshareChat`,
`generateResponseFromPrompt`), of the response-segmentation helpers
(the fenced-code splitter, `cleanBackticks`, `isProbablyCode`), of the
frontend chat route's knowledge extraction (`extractKnowledgeByCategory`),
and of its character-by-character streaming relay, together with theorems
about them.  JavaScript strings are embedded as `List Char`; the database
is an explicit `Store` record threaded through the operations; fallible
database calls take an explicit failure flag.
-/

namespace Jamflow

/-- Message direction enum (`MessageType` in the Prisma client). -/
inductive MessageType where
  | USER
  | BOT
deriving DecidableEq

/-- Snippet content-kind enum (`SnippetType` in the Prisma client). -/
inductive SnippetType where
  | TEXT
  | CODE
deriving DecidableEq

/-- Whitespace as JavaScript's `\s` class and `String.prototype.trim` treat it. -/
def isJsSpace (c : Char) : Bool :=
  let n := c.toNat
  n == 9 || n == 10 || n == 11 || n == 12 || n == 13 || n == 32 ||
  n == 0xa0 || n == 0x1680 || (decide (0x2000 ≤ n) && decide (n ≤ 0x200a)) ||
  n == 0x2028 || n == 0x2029 || n == 0x202f || n == 0x205f || n == 0x3000 ||
  n == 0xfeff

/-- JavaScript `String.prototype.trim`, on the character list of the string. -/
def trimChars (l : List Char) : List Char :=
  ((l.dropWhile isJsSpace).reverse.dropWhile isJsSpace).reverse

/-- JavaScript `String.prototype.slice(a, b)` for `0 ≤ a ≤ b`, on character lists. -/
def slice (l : List Char) (a b : Nat) : List Char :=
  (l.take b).drop a

/-- One left-to-right pass implementing `response.matchAll(regex)` for the lazy
fenced-code-block regex of `generateResponseFromPrompt` (three backticks, a
minimal body, three backticks).  `pos` is the absolute index of the head of the
first argument; the `Option Nat` records the start of a pending opening fence.
Returns the `(start, end)` index pairs of the matches, in order. -/
def scanFences : List Char → Nat → Option Nat → List (Nat × Nat)
  | '`' :: '`' :: '`' :: rest, pos, none => scanFences rest (pos + 3) (some pos)
  | '`' :: '`' :: '`' :: rest, pos, some s => (s, pos + 3) :: scanFences rest (pos + 3) none
  | _ :: rest, pos, openAt => scanFences rest (pos + 1) openAt
  | [], _, _ => []

/-- All fenced-code-block matches of a response, as `(start, end)` index pairs. -/
def fenceMatches (resp : List Char) : List (Nat × Nat) :=
  scanFences resp 0 none

/-- Strips the opening fence and language tag, embedding
`.replace(regex anchored at the start: three backticks, letters, optional newline, "")`. -/
def stripFenceHead (l : List Char) : List Char :=
  match l with
  | '`' :: '`' :: '`' :: rest =>
      match rest.dropWhile Char.isAlpha with
      | '\n' :: r => r
      | r => r
  | _ => l

/-- Strips a closing fence at the very end, embedding
`.replace(regex anchored at the end: three backticks, "")`. -/
def stripFenceTail (l : List Char) : List Char :=
  match l.reverse with
  | '`' :: '`' :: '`' :: r => r.reverse
  | _ => l

/-- Contents stored for one fenced match: fences and language tag removed, trimmed. -/
def codeContent (m : List Char) : List Char :=
  trimChars (stripFenceTail (stripFenceHead m))

/-- Left-to-right removal of every (non-overlapping) triple backtick, as
`str.replace(global regex: three backticks, "")`. -/
def removeTriples : List Char → List Char
  | '`' :: '`' :: '`' :: rest => removeTriples rest
  | c :: rest => c :: removeTriples rest
  | [] => []

/-- The helper `cleanBackticks`: removes every triple backtick, then trims. -/
def cleanBackticks (l : List Char) : List Char :=
  trimChars (removeTriples l)

/-- Does `l` begin with `name`, optional whitespace, then `(` — the anchored
form of the regex `name\s*\(`? -/
def callAt (name l : List Char) : Bool :=
  name.isPrefixOf l &&
    match (l.drop name.length).dropWhile isJsSpace with
    | '(' :: _ => true
    | _ => false

/-- Does the regex `name\s*\(` match anywhere in the text? -/
def containsCall (name : List Char) : List Char → Bool
  | [] => false
  | c :: rest => callAt name (c :: rest) || containsCall name rest

/-- The helper `isProbablyCode`: the Strudel-API call heuristics of the source
(`setcpm(`, `sound(`, `note(`, `stack(`, each with optional space before `(`). -/
def isProbablyCode (text : List Char) : Bool :=
  containsCall "setcpm".data text || containsCall "sound".data text ||
  containsCall "note".data text || containsCall "stack".data text

/-- One snippet produced by the segmentation step: its type, content and `order`. -/
structure Seg where
  type : SnippetType
  content : List Char
  order : Nat
deriving DecidableEq

/-- The loop of `generateResponseFromPrompt` over the fence matches: builds the
bot message's snippets from the match list, threading the `order` counter and
`lastIndex` exactly as the source does. -/
def buildSnippets (resp : List Char) : List (Nat × Nat) → Nat → Nat → List Seg
  | [], order, lastIndex =>
      if lastIndex < resp.length then
        let tail := trimChars (slice resp lastIndex resp.length)
        if tail = [] then [] else [⟨.TEXT, tail, order⟩]
      else []
  | (s, e) :: rest, order, lastIndex =>
      let pre : List Seg :=
        if lastIndex < s then
          let t := trimChars (slice resp lastIndex s)
          if t = [] then [] else [⟨.TEXT, t, order⟩]
        else []
      pre ++ ⟨.CODE, codeContent (slice resp s e), order + pre.length⟩ ::
        buildSnippets resp rest (order + pre.length + 1) e

/-- The segmentation step of `generateResponseFromPrompt`: fenced blocks become
CODE snippets, interstitial text TEXT snippets; when there is no fence, one
snippet classified by `isProbablyCode` with backticks cleaned. -/
def segmentResponse (resp : List Char) : List Seg :=
  match fenceMatches resp with
  | [] => [⟨if isProbablyCode resp then .CODE else .TEXT, cleanBackticks resp, 1⟩]
  | m :: ms => buildSnippets resp (m :: ms) 1 0

/-- Persisted Chat row: the fields the controllers use
(`id`, `userId`, `public`, `createdAt`). -/
structure Chat where
  id : String
  userId : String
  public : Bool
  createdAt : Nat
deriving DecidableEq

/-- Persisted Message row. -/
structure Message where
  id : String
  chatId : String
  from_ : MessageType
deriving DecidableEq

/-- Persisted Snippet row (the database primary key is not used by any
controller, so rows are identified by their position in the store). -/
structure Snippet where
  messageId : String
  type : SnippetType
  content : String
  order : Nat
deriving DecidableEq

/-- The persistent store: the three Prisma tables the chat controllers touch. -/
structure Store where
  chats : List Chat
  messages : List Message
  snippets : List Snippet
deriving DecidableEq

/-- Modelled from the spec: `getFilteredMessages` (imported from `../lib`, whose
source is not in the repository snapshot) shapes a chat's messages for the
response payload; per the spec's response schema it returns data derived from
the chat's own messages. -/
def getFilteredMessages (st : Store) (c : Chat) : List Message :=
  st.messages.filter (fun m => m.chatId == c.id)

/-- The `getChat` controller.  `validate` embeds `validateJWT` (token to user
id, `none` for an invalid token); `token` is the already-split bearer token,
`none` when the header is absent or malformed.  Returns the HTTP status and
the message payload (`none` when no message data is returned). -/
def getChat (validate : String → Option String) (st : Store) (idParam : String)
    (token : Option String) : Nat × Option (List Message) :=
  if idParam = "" then (400, none)
  else
    match st.chats.find? (fun c => c.id == idParam) with
    | none => (404, none)
    | some chat =>
      if chat.public then (200, some (getFilteredMessages st chat))
      else
        match token with
        | none => (400, none)
        | some t =>
          match validate t with
          | none => (401, none)
          | some uid =>
            if chat.userId ≠ uid then (403, none)
            else (200, some (getFilteredMessages st chat))

/-- The `updateChat` controller (edit of a prior user prompt).  `userId` is the
authenticated requester (set by the `validateToken` middleware); `dbFail`
embeds a failure of the `snippet.updateMany` call.  Returns the HTTP status
and the resulting store. -/
def updateChat (st : Store) (userId idParam messageId prompt : String)
    (dbFail : Bool) : Nat × Store :=
  if idParam = "" ∨ messageId = "" then (400, st)
  else
    match st.chats.find? (fun c => c.id == idParam) with
    | none => (404, st)
    | some chat =>
      if chat.userId ≠ userId then (403, st)
      else
        match st.messages.find? (fun m => m.id == messageId) with
        | none => (404, st)
        | some msg =>
          if msg.from_ ≠ MessageType.USER then (403, st)
          else if dbFail then (500, st)
          else
            (200, { st with snippets := st.snippets.map (fun s =>
              if s.messageId = msg.id then { s with content := prompt } else s) })

/-- The `deleteChat` controller.  `txFail` embeds a failure of the enclosing
`prisma.$transaction`; on failure nothing is persisted. -/
def deleteChat (st : Store) (userId idParam : String) (txFail : Bool) :
    Nat × Store :=
  if idParam = "" then (400, st)
  else
    match st.chats.find? (fun c => c.id == idParam) with
    | none => (404, st)
    | some chat =>
      if chat.userId ≠ userId then (403, st)
      else if txFail then (500, st)
      else
        let chatMsgIds := (st.messages.filter (fun m => m.chatId == chat.id)).map Message.id
        (200,
          { chats := st.chats.filter (fun c => !(c.id == chat.id)),
            messages := st.messages.filter (fun m => !(m.chatId == chat.id)),
            snippets := st.snippets.filter (fun s => !(decide (s.messageId ∈ chatMsgIds))) })

/-- The `shareChat` controller: sets the chat's `public` flag to `true`. -/
def shareChat (st : Store) (userId idParam : String) (dbFail : Bool) :
    Nat × Store :=
  if idParam = "" then (400, st)
  else
    match st.chats.find? (fun c => c.id == idParam) with
    | none => (404, st)
    | some chat =>
      if chat.userId ≠ userId then (403, st)
      else if dbFail then (500, st)
      else
        (200, { st with chats := st.chats.map (fun c =>
          if c.id = idParam then { c with public := true } else c) })

/-- The `unshareChat` controller: sets the chat's `public` flag to `false`. -/
def unshareChat (st : Store) (userId idParam : String) (dbFail : Bool) :
    Nat × Store :=
  if idParam = "" then (400, st)
  else
    match st.chats.find? (fun c => c.id == idParam) with
    | none => (404, st)
    | some chat =>
      if chat.userId ≠ userId then (403, st)
      else if dbFail then (500, st)
      else
        (200, { st with chats := st.chats.map (fun c =>
          if c.id = idParam then { c with public := false } else c) })

/-- The `generateResponseFromPrompt` controller (append a prompt/response
turn).  `newUserMsgId` and `newBotMsgId` stand for the database-generated ids
of the two created messages. -/
def generateResponseFromPrompt (st : Store)
    (userId idParam prompt response : String)
    (newUserMsgId newBotMsgId : String) : Nat × Store :=
  if idParam = "" ∨ prompt = "" ∨ response = "" then (400, st)
  else
    match st.chats.find? (fun c => c.id == idParam) with
    | none => (404, st)
    | some chat =>
      if chat.public = false ∧ chat.userId ≠ userId then (403, st)
      else
        let userMsg : Message := ⟨newUserMsgId, chat.id, .USER⟩
        let userSnip : Snippet := ⟨newUserMsgId, .TEXT, prompt, 1⟩
        let botMsg : Message := ⟨newBotMsgId, chat.id, .BOT⟩
        let botSnips := (segmentResponse response.data).map
          (fun g => Snippet.mk newBotMsgId g.type (String.mk g.content) g.order)
        (200, { st with
          messages := st.messages ++ [userMsg, botMsg],
          snippets := st.snippets ++ userSnip :: botSnips })

/-- ASCII lowering of a string, embedding `String.prototype.toLowerCase` on the
ASCII range (the knowledge base and category names are ASCII). -/
def lowerStr (s : String) : String :=
  String.mk (s.data.map Char.toLower)

/-- Substring test, embedding `String.prototype.includes` on character lists. -/
def containsSub (hay needle : List Char) : Bool :=
  needle.isPrefixOf hay ||
    match hay with
    | [] => false
    | _ :: t => containsSub t needle

/-- One knowledge-base entry: the fields `extractKnowledgeByCategory` reads
(`content`, `music_concepts`, `strudel_functions`, the latter two arrays). -/
structure KBEntry where
  content : String
  music_concepts : List String
  strudel_functions : List String
deriving DecidableEq

/-- The match test of `extractKnowledgeByCategory`: some category is a
substring of the lowered `content`, or of the lowered comma-joined
`music_concepts` (JavaScript `String(array)`), or of the lowered comma-joined
`strudel_functions`. -/
def entryMatches (categories : List String) (e : KBEntry) : Bool :=
  categories.any (fun cat =>
    containsSub (lowerStr e.content).data (lowerStr cat).data ||
    containsSub (lowerStr (String.intercalate "," e.music_concepts)).data (lowerStr cat).data ||
    containsSub (lowerStr (String.intercalate "," e.strudel_functions)).data (lowerStr cat).data)

/-- The accumulation loop of `extractKnowledgeByCategory`: pushes the
(original-case) `content` of every matching entry, in knowledge-base order. -/
def extractKnowledgeLoop (categories : List String) : List KBEntry → List String
  | [] => []
  | e :: rest =>
      if entryMatches categories e then
        e.content :: extractKnowledgeLoop categories rest
      else extractKnowledgeLoop categories rest

/-- The function `extractKnowledgeByCategory` of the frontend chat route:
collect matching entries, keep the first 30, join with newlines. -/
def extractKnowledgeByCategory (categories : List String) (kb : List KBEntry) :
    String :=
  String.intercalate "\n" ((extractKnowledgeLoop categories kb).take 30)

/-- The character-emission loop of the streaming relay in the chat route's
`POST` handler: starting at index `i` of the fully-fetched response, the list
of chunks enqueued (one character per timer tick) before the stream closes. -/
def streamChunksFrom (s : List Char) (i : Nat) : List (List Char) :=
  if h : i < s.length then [s.get ⟨i, h⟩] :: streamChunksFrom s (i + 1) else []
termination_by s.length - i

/-! ## Theorems about the segmentation step -/

/-- C4: on the response consisting of exactly the fenced block with language
tag `js` and body `sound("bd")`, the segmentation step produces exactly one
snippet for the bot message: type CODE, content `sound("bd")` with the fences
and language tag stripped, and order 1. -/
theorem segment_single_fenced_block :
    segmentResponse "```js\nsound(\"bd\")\n```".data =
      [⟨SnippetType.CODE, "sound(\"bd\")".data, 1⟩] := by
  decide

/-- C3, counterexample: the response `a```x```b` contains exactly one
triple-backtick fenced block, yet the segmentation step produces two TEXT
snippets (the text before and after the block), so the output is not
"exactly one TEXT and one CODE snippet or fewer". -/
theorem segment_one_fence_claim_false :
    (fenceMatches "a```x```b".data).length = 1 ∧
    ¬ ((segmentResponse "a```x```b".data).filter
        (fun g => g.type == SnippetType.TEXT)).length ≤ 1 := by
  decide

/-- C3, amended: for every response whose fenced-code regex yields exactly one
match, the segmentation step produces exactly one CODE snippet and at most two
TEXT snippets (the trimmed text before and after the block, dropped when
empty), with the `order` values strictly ascending. -/
theorem segment_one_fence_shape (resp : List Char) (s e : Nat)
    (h : fenceMatches resp = [(s, e)]) :
    ((segmentResponse resp).filter (fun g => g.type == SnippetType.CODE)).length = 1 ∧
    ((segmentResponse resp).filter (fun g => g.type == SnippetType.TEXT)).length ≤ 2 ∧
    List.Pairwise (· < ·) ((segmentResponse resp).map Seg.order) := by
  have hseg : segmentResponse resp = buildSnippets resp [(s, e)] 1 0 := by
    unfold segmentResponse
    rw [h]
  rw [hseg]
  unfold buildSnippets
  by_cases h0 : 0 < s
  · by_cases hpre : trimChars (slice resp 0 s) = []
    · by_cases he : e < resp.length
      · by_cases htl : trimChars (slice resp e resp.length) = []
        · simp [buildSnippets, h0, hpre, he, htl]
        · simp [buildSnippets, h0, hpre, he, htl]
      · simp [buildSnippets, h0, hpre, he]
    · by_cases he : e < resp.length
      · by_cases htl : trimChars (slice resp e resp.length) = []
        · simp [buildSnippets, h0, hpre, he, htl]
        · simp [buildSnippets, h0, hpre, he, htl]
      · simp [buildSnippets, h0, hpre, he]
  · by_cases he : e < resp.length
    · by_cases htl : trimChars (slice resp e resp.length) = []
      · simp [buildSnippets, h0, he, htl]
      · simp [buildSnippets, h0, he, htl]
    · simp [buildSnippets, h0, he]

/-- C3, witness: the amended statement instantiated at the concrete response
`a```x```b`, whose unique fence match is `(1, 8)`. -/
theorem segment_one_fence_shape_witness :
    ((segmentResponse "a```x```b".data).filter
        (fun g => g.type == SnippetType.CODE)).length = 1 ∧
    ((segmentResponse "a```x```b".data).filter
        (fun g => g.type == SnippetType.TEXT)).length ≤ 2 ∧
    List.Pairwise (· < ·) ((segmentResponse "a```x```b".data).map Seg.order) :=
  segment_one_fence_shape "a```x```b".data 1 8 (by decide)

/-- C5: when the response contains no triple-backtick fence, the segmentation
step produces exactly one snippet holding the backtick-cleaned, trimmed
response, typed CODE exactly when one of the Strudel-API call patterns
(`setcpm(`, `sound(`, `note(`, `stack(`, optional whitespace before the
parenthesis) occurs in it, and TEXT otherwise. -/
theorem segment_no_fence (resp : List Char) (h : fenceMatches resp = []) :
    segmentResponse resp =
      [⟨if containsCall "setcpm".data resp || containsCall "sound".data resp ||
          containsCall "note".data resp || containsCall "stack".data resp
        then SnippetType.CODE else SnippetType.TEXT,
        trimChars (removeTriples resp), 1⟩] := by
  unfold segmentResponse
  rw [h]
  simp only [isProbablyCode, cleanBackticks]

/-- C5, witness: the statement instantiated at the fence-free response
`sound("bd")`, which the heuristics classify as CODE. -/
theorem segment_no_fence_witness :
    fenceMatches "sound(\"bd\")".data = [] ∧
    segmentResponse "sound(\"bd\")".data =
      [⟨if containsCall "setcpm".data "sound(\"bd\")".data ||
           containsCall "sound".data "sound(\"bd\")".data ||
           containsCall "note".data "sound(\"bd\")".data ||
           containsCall "stack".data "sound(\"bd\")".data
         then SnippetType.CODE else SnippetType.TEXT,
         trimChars (removeTriples "sound(\"bd\")".data), 1⟩] :=
  ⟨by decide, segment_no_fence "sound(\"bd\")".data (by decide)⟩

/-! ## Theorems about the frontend chat route -/

/-- The accumulation loop collects exactly the contents of the matching
entries, in knowledge-base order. -/
theorem extractKnowledgeLoop_eq (cats : List String) (kb : List KBEntry) :
    extractKnowledgeLoop cats kb =
      (kb.filter (entryMatches cats)).map KBEntry.content := by
  induction kb with
  | nil => rfl
  | cons e rest ih =>
      by_cases h : entryMatches cats e = true
      · simp [extractKnowledgeLoop, List.filter_cons, h, ih]
      · simp [extractKnowledgeLoop, List.filter_cons, h, ih]

/-- C8: for every knowledge base and category list, the extraction step keeps
at most 30 entries; every kept entry is the content of a knowledge-base entry
that passes the (case-insensitive, substring) category match on `content`,
`music_concepts` or `strudel_functions`; the kept contents appear in
knowledge-base order; and `extractKnowledgeByCategory` is their
newline-joined concatenation. -/
theorem extractKnowledge_spec (cats : List String) (kb : List KBEntry) :
    ((extractKnowledgeLoop cats kb).take 30).length ≤ 30 ∧
    (∀ s ∈ (extractKnowledgeLoop cats kb).take 30,
      ∃ e ∈ kb, entryMatches cats e = true ∧ s = e.content) ∧
    ((extractKnowledgeLoop cats kb).take 30).Sublist (kb.map KBEntry.content) ∧
    extractKnowledgeByCategory cats kb =
      String.intercalate "\n" ((extractKnowledgeLoop cats kb).take 30) := by
  refine ⟨List.length_take_le _ _, ?_, ?_, rfl⟩
  · intro s hs
    have hs' : s ∈ extractKnowledgeLoop cats kb :=
      (List.take_sublist _ _).mem hs
    rw [extractKnowledgeLoop_eq] at hs'
    obtain ⟨e, he, hce⟩ := List.mem_map.mp hs'
    have hm := List.mem_filter.mp he
    exact ⟨e, hm.1, hm.2, hce.symm⟩
  · rw [extractKnowledgeLoop_eq]
    exact (List.take_sublist _ _).trans ((List.filter_sublist _).map _)

/-- Joining the chunks emitted from index `i` onward gives the dropped tail of
the response. -/
theorem streamChunksFrom_join (s : List Char) (i : Nat) :
    (streamChunksFrom s i).flatten = s.drop i := by
  rw [streamChunksFrom]
  by_cases h : i < s.length
  · rw [dif_pos h, List.flatten_cons, streamChunksFrom_join s (i + 1)]
    rw [List.drop_eq_getElem_cons h]
    rfl
  · rw [dif_neg h, List.flatten_nil]
    rw [List.drop_eq_nil_of_le (Nat.le_of_not_lt h)]
termination_by s.length - i

/-- Every emitted chunk is a single character. -/
theorem streamChunksFrom_chunk_length (s : List Char) (i : Nat) :
    ∀ ch ∈ streamChunksFrom s i, ch.length = 1 := by
  rw [streamChunksFrom]
  by_cases h : i < s.length
  · rw [dif_pos h]
    intro ch hch
    rcases List.mem_cons.mp hch with hc | hc
    · rw [hc]; rfl
    · exact streamChunksFrom_chunk_length s (i + 1) ch hc
  · rw [dif_neg h]
    intro ch hch
    cases hch
termination_by s.length - i

/-- C9: the uncancelled character-by-character stream of the chat route's
`POST` handler re-emits the fully-fetched response faithfully: every chunk is
exactly one character, and the chunks joined in emission order are exactly the
original response string — nothing added, dropped or reordered. -/
theorem stream_relay_faithful (response : String) :
    (∀ ch ∈ streamChunksFrom response.data 0, ch.length = 1) ∧
    String.mk ((streamChunksFrom response.data 0).flatten) = response := by
  refine ⟨streamChunksFrom_chunk_length response.data 0, ?_⟩
  rw [streamChunksFrom_join, List.drop_zero]

/-! ## Theorems about the chat persistence controllers -/

/-- C2: for a stored chat (nonempty id, the row `find?` returns for that id),
`getChat` answers 200 with the chat's message payload exactly when the chat is
public or the request carries a token that validates to the owner's user id;
in every other case the status is one of 400, 401, 403, 404 and no message
data is returned. -/
theorem getChat_auth (validate : String → Option String) (st : Store)
    (chat : Chat) (token : Option String)
    (hid : chat.id ≠ "")
    (hfind : st.chats.find? (fun c => c.id == chat.id) = some chat) :
    (getChat validate st chat.id token = (200, some (getFilteredMessages st chat)) ↔
      (chat.public = true ∨ ∃ t, token = some t ∧ validate t = some chat.userId)) ∧
    (¬(chat.public = true ∨ ∃ t, token = some t ∧ validate t = some chat.userId) →
      (getChat validate st chat.id token).1 ∈ ([400, 401, 403, 404] : List Nat) ∧
      (getChat validate st chat.id token).2 = none) := by
  unfold getChat
  rw [if_neg hid, hfind]
  cases hpub : chat.public with
  | true => simp [hpub]
  | false =>
    cases token with
    | none => simp [hpub]
    | some t =>
      cases hv : validate t with
      | none => simp [hpub, hv]
      | some uid =>
        by_cases hu : chat.userId = uid
        · subst hu
          simp [hpub, hv]
        · have huid : uid ≠ chat.userId := fun hh => hu hh.symm
          simp [hpub, hv, hu, huid]

/-- C2, witness: the statement instantiated at a private chat, its owner's
valid token, and a one-chat store. -/
theorem getChat_auth_witness :
    (getChat (fun t => if t = "tok-alice" then some "alice" else none)
        (Store.mk [Chat.mk "chat1" "alice" false 0]
          [Message.mk "m1" "chat1" MessageType.USER] [])
        (Chat.mk "chat1" "alice" false 0).id (some "tok-alice") =
      (200, some (getFilteredMessages
        (Store.mk [Chat.mk "chat1" "alice" false 0]
          [Message.mk "m1" "chat1" MessageType.USER] [])
        (Chat.mk "chat1" "alice" false 0))) ↔
      ((Chat.mk "chat1" "alice" false 0).public = true ∨
        ∃ t, (some "tok-alice" : Option String) = some t ∧
          (fun t => if t = "tok-alice" then some "alice" else none) t =
            some (Chat.mk "chat1" "alice" false 0).userId)) ∧
    (¬((Chat.mk "chat1" "alice" false 0).public = true ∨
        ∃ t, (some "tok-alice" : Option String) = some t ∧
          (fun t => if t = "tok-alice" then some "alice" else none) t =
            some (Chat.mk "chat1" "alice" false 0).userId) →
      (getChat (fun t => if t = "tok-alice" then some "alice" else none)
          (Store.mk [Chat.mk "chat1" "alice" false 0]
            [Message.mk "m1" "chat1" MessageType.USER] [])
          (Chat.mk "chat1" "alice" false 0).id (some "tok-alice")).1 ∈
        ([400, 401, 403, 404] : List Nat) ∧
      (getChat (fun t => if t = "tok-alice" then some "alice" else none)
          (Store.mk [Chat.mk "chat1" "alice" false 0]
            [Message.mk "m1" "chat1" MessageType.USER] [])
          (Chat.mk "chat1" "alice" false 0).id (some "tok-alice")).2 = none) :=
  getChat_auth (fun t => if t = "tok-alice" then some "alice" else none)
    (Store.mk [Chat.mk "chat1" "alice" false 0]
      [Message.mk "m1" "chat1" MessageType.USER] [])
    (Chat.mk "chat1" "alice" false 0) (some "tok-alice") (by decide) rfl

/-- C6: deleting an owned chat (nonempty id, owner matches) with a succeeding
transaction returns 200 and leaves no message of that chat and no snippet of
any of that chat's messages in the store, and no chat row with that id; if the
transaction fails the response is 500 and the store is unchanged. -/
theorem deleteChat_cascade (st : Store) (chat : Chat) (uid : String)
    (hid : chat.id ≠ "")
    (hfind : st.chats.find? (fun c => c.id == chat.id) = some chat)
    (hown : chat.userId = uid) :
    ((deleteChat st uid chat.id false).1 = 200 ∧
      (∀ m ∈ (deleteChat st uid chat.id false).2.messages, m.chatId ≠ chat.id) ∧
      (∀ sn ∈ (deleteChat st uid chat.id false).2.snippets,
        ∀ m ∈ st.messages, m.chatId = chat.id → sn.messageId ≠ m.id) ∧
      (∀ c ∈ (deleteChat st uid chat.id false).2.chats, c.id ≠ chat.id)) ∧
    deleteChat st uid chat.id true = (500, st) := by
  have hne : ¬ chat.userId ≠ uid := fun hh => hh hown
  constructor
  · refine ⟨?_, ?_, ?_, ?_⟩
    · simp [deleteChat, hid, hfind, hne]
    · intro m hm
      simp [deleteChat, hid, hfind, hne] at hm
      exact hm.2
    · intro sn hsn m hm hchatid
      simp [deleteChat, hid, hfind, hne] at hsn
      intro heq
      exact hsn.2 m hm hchatid heq.symm
    · intro c hc
      simp [deleteChat, hid, hfind, hne] at hc
      exact hc.2
  · simp [deleteChat, hid, hfind, hne]

/-- C6, witness: the statement instantiated at a two-chat store where the
deleted chat has one message with one snippet and an unrelated chat keeps its
rows. -/
theorem deleteChat_cascade_witness :
    ((deleteChat (Store.mk [Chat.mk "c1" "u1" false 0, Chat.mk "c2" "u2" false 0]
        [Message.mk "m1" "c1" MessageType.USER, Message.mk "m2" "c2" MessageType.BOT]
        [Snippet.mk "m1" SnippetType.TEXT "x" 1, Snippet.mk "m2" SnippetType.CODE "y" 1])
        "u1" (Chat.mk "c1" "u1" false 0).id false).1 = 200 ∧
      (∀ m ∈ (deleteChat (Store.mk [Chat.mk "c1" "u1" false 0, Chat.mk "c2" "u2" false 0]
        [Message.mk "m1" "c1" MessageType.USER, Message.mk "m2" "c2" MessageType.BOT]
        [Snippet.mk "m1" SnippetType.TEXT "x" 1, Snippet.mk "m2" SnippetType.CODE "y" 1])
        "u1" (Chat.mk "c1" "u1" false 0).id false).2.messages,
        m.chatId ≠ (Chat.mk "c1" "u1" false 0).id) ∧
      (∀ sn ∈ (deleteChat (Store.mk [Chat.mk "c1" "u1" false 0, Chat.mk "c2" "u2" false 0]
        [Message.mk "m1" "c1" MessageType.USER, Message.mk "m2" "c2" MessageType.BOT]
        [Snippet.mk "m1" SnippetType.TEXT "x" 1, Snippet.mk "m2" SnippetType.CODE "y" 1])
        "u1" (Chat.mk "c1" "u1" false 0).id false).2.snippets,
        ∀ m ∈ (Store.mk [Chat.mk "c1" "u1" false 0, Chat.mk "c2" "u2" false 0]
        [Message.mk "m1" "c1" MessageType.USER, Message.mk "m2" "c2" MessageType.BOT]
        [Snippet.mk "m1" SnippetType.TEXT "x" 1, Snippet.mk "m2" SnippetType.CODE "y" 1]).messages,
          m.chatId = (Chat.mk "c1" "u1" false 0).id → sn.messageId ≠ m.id) ∧
      (∀ c ∈ (deleteChat (Store.mk [Chat.mk "c1" "u1" false 0, Chat.mk "c2" "u2" false 0]
        [Message.mk "m1" "c1" MessageType.USER, Message.mk "m2" "c2" MessageType.BOT]
        [Snippet.mk "m1" SnippetType.TEXT "x" 1, Snippet.mk "m2" SnippetType.CODE "y" 1])
        "u1" (Chat.mk "c1" "u1" false 0).id false).2.chats,
        c.id ≠ (Chat.mk "c1" "u1" false 0).id)) ∧
    deleteChat (Store.mk [Chat.mk "c1" "u1" false 0, Chat.mk "c2" "u2" false 0]
        [Message.mk "m1" "c1" MessageType.USER, Message.mk "m2" "c2" MessageType.BOT]
        [Snippet.mk "m1" SnippetType.TEXT "x" 1, Snippet.mk "m2" SnippetType.CODE "y" 1])
        "u1" (Chat.mk "c1" "u1" false 0).id true =
      (500, Store.mk [Chat.mk "c1" "u1" false 0, Chat.mk "c2" "u2" false 0]
        [Message.mk "m1" "c1" MessageType.USER, Message.mk "m2" "c2" MessageType.BOT]
        [Snippet.mk "m1" SnippetType.TEXT "x" 1, Snippet.mk "m2" SnippetType.CODE "y" 1]) :=
  deleteChat_cascade _ _ _ (by decide) rfl rfl

/-- Finding under a map commutes when the mapped function preserves the
predicate. -/
theorem find?_map_of_pred {α : Type} (f : α → α) (p : α → Bool) (l : List α)
    (hpf : ∀ c, p (f c) = p c) :
    (l.map f).find? p = (l.find? p).map f := by
  induction l with
  | nil => rfl
  | cons a t ih =>
      by_cases h : p a = true
      · have h' : p (f a) = true := by rw [hpf]; exact h
        rw [List.map_cons, List.find?_cons_of_pos _ h', List.find?_cons_of_pos _ h]
        rfl
      · have h' : ¬ p (f a) = true := by rw [hpf]; exact h
        rw [List.map_cons, List.find?_cons_of_neg _ h', List.find?_cons_of_neg _ h, ih]

/-- C7: sharing then unsharing a chat the requester owns succeeds (both return
200) and restores private visibility, and neither operation changes any other
field of the chat: after `shareChat` the stored row is the original row with
`public := true`, and after the subsequent `unshareChat` it is the original
row with `public := false`. -/
theorem share_then_unshare (st : Store) (chat : Chat) (uid : String)
    (hid : chat.id ≠ "")
    (hfind : st.chats.find? (fun c => c.id == chat.id) = some chat)
    (hown : chat.userId = uid) :
    (shareChat st uid chat.id false).1 = 200 ∧
    ((shareChat st uid chat.id false).2.chats.find? (fun c => c.id == chat.id) =
      some { chat with public := true }) ∧
    (unshareChat (shareChat st uid chat.id false).2 uid chat.id false).1 = 200 ∧
    ((unshareChat (shareChat st uid chat.id false).2 uid chat.id
        false).2.chats.find? (fun c => c.id == chat.id) =
      some { chat with public := false }) := by
  have hne : ¬ chat.userId ≠ uid := fun hh => hh hown
  have hpres : ∀ (b : Bool) (c : Chat),
      (fun c => c.id == chat.id)
          ((fun c => if c.id = chat.id then { c with public := b } else c) c) =
        (fun c => c.id == chat.id) c := by
    intro b c
    by_cases h : c.id = chat.id <;> simp [h]
  have h1 : shareChat st uid chat.id false =
      (200, { st with chats := st.chats.map (fun c => if c.id = chat.id then { c with public := true } else c) }) := by
    simp [shareChat, hid, hfind, hne]
  have hfind1 : (st.chats.map (fun c => if c.id = chat.id then { c with public := true } else c)).find?
        (fun c => c.id == chat.id) = some { chat with public := true } := by
    rw [find?_map_of_pred _ _ _ (hpres true), hfind]
    simp
  have h2 : unshareChat (shareChat st uid chat.id false).2 uid chat.id false =
      (200, { (shareChat st uid chat.id false).2 with chats := (shareChat st uid chat.id false).2.chats.map (fun c => if c.id = chat.id then { c with public := false } else c) }) := by
    rw [h1]
    simp [unshareChat, hid, hfind1, hne, hown]
  refine ⟨by rw [h1], by rw [h1]; exact hfind1, by rw [h2], ?_⟩
  rw [h2, h1]
  show (List.map _ (st.chats.map _)).find? _ = _
  rw [find?_map_of_pred _ _ _ (hpres false), hfind1]
  simp

/-- C7, witness: the statement instantiated at a one-chat store whose chat is
owned by the requester. -/
theorem share_then_unshare_witness :
    (shareChat (Store.mk [Chat.mk "c9" "ursula" false 7] [] [])
        "ursula" (Chat.mk "c9" "ursula" false 7).id false).1 = 200 ∧
    ((shareChat (Store.mk [Chat.mk "c9" "ursula" false 7] [] [])
        "ursula" (Chat.mk "c9" "ursula" false 7).id false).2.chats.find?
          (fun c => c.id == (Chat.mk "c9" "ursula" false 7).id) =
      some { Chat.mk "c9" "ursula" false 7 with public := true }) ∧
    (unshareChat (shareChat (Store.mk [Chat.mk "c9" "ursula" false 7] [] [])
        "ursula" (Chat.mk "c9" "ursula" false 7).id false).2
        "ursula" (Chat.mk "c9" "ursula" false 7).id false).1 = 200 ∧
    ((unshareChat (shareChat (Store.mk [Chat.mk "c9" "ursula" false 7] [] [])
        "ursula" (Chat.mk "c9" "ursula" false 7).id false).2
        "ursula" (Chat.mk "c9" "ursula" false 7).id false).2.chats.find?
          (fun c => c.id == (Chat.mk "c9" "ursula" false 7).id) =
      some { Chat.mk "c9" "ursula" false 7 with public := false }) :=
  share_then_unshare (Store.mk [Chat.mk "c9" "ursula" false 7] [] [])
    (Chat.mk "c9" "ursula" false 7) "ursula" (by decide) rfl rfl

/-- Zipping a list with its image under a map pairs each element with its
image. -/
theorem zip_map_eq {α β : Type} (f : α → β) :
    ∀ (l : List α), ∀ q ∈ l.zip (l.map f), q.2 = f q.1 := by
  intro l
  induction l with
  | nil =>
      intro q hq
      cases hq
  | cons a t ih =>
      intro q hq
      rw [List.map_cons, List.zip_cons_cons] at hq
      rcases List.mem_cons.mp hq with hc | hc
      · rw [hc]
      · exact ih q hc

/-- C10: a successful `updateChat` (valid parameters, owned chat, existing USER
message, no database failure) returns 200, leaves the chats and messages
tables untouched and the snippet count unchanged, and rewrites the snippet
table pointwise: every snippet of the edited message has its content set to
the supplied prompt with `messageId`, `type` and `order` unchanged, and every
snippet of any other message is entirely unchanged. -/
theorem updateChat_frame (st : Store) (userId idParam messageId prompt : String)
    (chat : Chat) (msg : Message)
    (hparse : ¬(idParam = "" ∨ messageId = ""))
    (hchat : st.chats.find? (fun c => c.id == idParam) = some chat)
    (hown : chat.userId = userId)
    (hmsg : st.messages.find? (fun m => m.id == messageId) = some msg)
    (hfrom : msg.from_ = MessageType.USER) :
    (updateChat st userId idParam messageId prompt false).1 = 200 ∧
    (updateChat st userId idParam messageId prompt false).2.chats = st.chats ∧
    (updateChat st userId idParam messageId prompt false).2.messages = st.messages ∧
    (updateChat st userId idParam messageId prompt false).2.snippets.length =
      st.snippets.length ∧
    ∀ p ∈ st.snippets.zip (updateChat st userId idParam messageId prompt false).2.snippets,
      p.2.messageId = p.1.messageId ∧ p.2.type = p.1.type ∧ p.2.order = p.1.order ∧
      (p.1.messageId = msg.id → p.2.content = prompt) ∧
      (p.1.messageId ≠ msg.id → p.2 = p.1) := by
  have hne : ¬ chat.userId ≠ userId := fun hh => hh hown
  have hfne : ¬ msg.from_ ≠ MessageType.USER := fun hh => hh hfrom
  have hupd : updateChat st userId idParam messageId prompt false =
      (200, { st with snippets := st.snippets.map (fun s =>
        if s.messageId = msg.id then { s with content := prompt } else s) }) := by
    simp [updateChat, hparse, hchat, hne, hmsg, hfne]
  rw [hupd]
  refine ⟨rfl, rfl, rfl, by simp, ?_⟩
  intro p hp
  have hq := zip_map_eq (fun s =>
    if s.messageId = msg.id then { s with content := prompt } else s) st.snippets p hp
  by_cases hmid : p.1.messageId = msg.id
  · simp [hq, hmid]
  · simp [hq, hmid]

/-- C10, witness: the statement instantiated at a store with two snippets on
the edited message and one snippet on another message. -/
theorem updateChat_frame_witness :
    (updateChat (Store.mk [Chat.mk "c1" "u1" false 0]
        [Message.mk "m1" "c1" MessageType.USER, Message.mk "m2" "c1" MessageType.BOT]
        [Snippet.mk "m1" SnippetType.TEXT "old" 1, Snippet.mk "m1" SnippetType.CODE "oldc" 2,
         Snippet.mk "m2" SnippetType.TEXT "bot" 1])
        "u1" "c1" "m1" "newp" false).1 = 200 ∧
    (updateChat (Store.mk [Chat.mk "c1" "u1" false 0]
        [Message.mk "m1" "c1" MessageType.USER, Message.mk "m2" "c1" MessageType.BOT]
        [Snippet.mk "m1" SnippetType.TEXT "old" 1, Snippet.mk "m1" SnippetType.CODE "oldc" 2,
         Snippet.mk "m2" SnippetType.TEXT "bot" 1])
        "u1" "c1" "m1" "newp" false).2.chats =
      (Store.mk [Chat.mk "c1" "u1" false 0]
        [Message.mk "m1" "c1" MessageType.USER, Message.mk "m2" "c1" MessageType.BOT]
        [Snippet.mk "m1" SnippetType.TEXT "old" 1, Snippet.mk "m1" SnippetType.CODE "oldc" 2,
         Snippet.mk "m2" SnippetType.TEXT "bot" 1]).chats ∧
    (updateChat (Store.mk [Chat.mk "c1" "u1" false 0]
        [Message.mk "m1" "c1" MessageType.USER, Message.mk "m2" "c1" MessageType.BOT]
        [Snippet.mk "m1" SnippetType.TEXT "old" 1, Snippet.mk "m1" SnippetType.CODE "oldc" 2,
         Snippet.mk "m2" SnippetType.TEXT "bot" 1])
        "u1" "c1" "m1" "newp" false).2.messages =
      (Store.mk [Chat.mk "c1" "u1" false 0]
        [Message.mk "m1" "c1" MessageType.USER, Message.mk "m2" "c1" MessageType.BOT]
        [Snippet.mk "m1" SnippetType.TEXT "old" 1, Snippet.mk "m1" SnippetType.CODE "oldc" 2,
         Snippet.mk "m2" SnippetType.TEXT "bot" 1]).messages ∧
    (updateChat (Store.mk [Chat.mk "c1" "u1" false 0]
        [Message.mk "m1" "c1" MessageType.USER, Message.mk "m2" "c1" MessageType.BOT]
        [Snippet.mk "m1" SnippetType.TEXT "old" 1, Snippet.mk "m1" SnippetType.CODE "oldc" 2,
         Snippet.mk "m2" SnippetType.TEXT "bot" 1])
        "u1" "c1" "m1" "newp" false).2.snippets.length =
      (Store.mk [Chat.mk "c1" "u1" false 0]
        [Message.mk "m1" "c1" MessageType.USER, Message.mk "m2" "c1" MessageType.BOT]
        [Snippet.mk "m1" SnippetType.TEXT "old" 1, Snippet.mk "m1" SnippetType.CODE "oldc" 2,
         Snippet.mk "m2" SnippetType.TEXT "bot" 1]).snippets.length ∧
    ∀ p ∈ (Store.mk [Chat.mk "c1" "u1" false 0]
        [Message.mk "m1" "c1" MessageType.USER, Message.mk "m2" "c1" MessageType.BOT]
        [Snippet.mk "m1" SnippetType.TEXT "old" 1, Snippet.mk "m1" SnippetType.CODE "oldc" 2,
         Snippet.mk "m2" SnippetType.TEXT "bot" 1]).snippets.zip
        (updateChat (Store.mk [Chat.mk "c1" "u1" false 0]
          [Message.mk "m1" "c1" MessageType.USER, Message.mk "m2" "c1" MessageType.BOT]
          [Snippet.mk "m1" SnippetType.TEXT "old" 1, Snippet.mk "m1" SnippetType.CODE "oldc" 2,
           Snippet.mk "m2" SnippetType.TEXT "bot" 1])
          "u1" "c1" "m1" "newp" false).2.snippets,
      p.2.messageId = p.1.messageId ∧ p.2.type = p.1.type ∧ p.2.order = p.1.order ∧
      (p.1.messageId = (Message.mk "m1" "c1" MessageType.USER).id → p.2.content = "newp") ∧
      (p.1.messageId ≠ (Message.mk "m1" "c1" MessageType.USER).id → p.2 = p.1) :=
  updateChat_frame (Store.mk [Chat.mk "c1" "u1" false 0]
      [Message.mk "m1" "c1" MessageType.USER, Message.mk "m2" "c1" MessageType.BOT]
      [Snippet.mk "m1" SnippetType.TEXT "old" 1, Snippet.mk "m1" SnippetType.CODE "oldc" 2,
       Snippet.mk "m2" SnippetType.TEXT "bot" 1])
    "u1" "c1" "m1" "newp" (Chat.mk "c1" "u1" false 0)
    (Message.mk "m1" "c1" MessageType.USER) (by decide) rfl rfl rfl rfl

/-- C1: evaluation of the code at a concrete failing input.  The store holds
Alice's private chat `chatA` (one USER message `msg1` with snippet `hello`),
Mallory's chat `chatM`, and Alice's public chat `chatP`.  Mallory's
`updateChat` request naming her own chat `chatM` but Alice's message `msg1`
succeeds (200) and overwrites the snippet of Alice's chat, because the code
never checks that the edited message belongs to the chat in the URL; and
Mallory's `generateResponseFromPrompt` on Alice's public chat `chatP` succeeds
and mutates its message list.  Both contradict the owner-only-mutation claim. -/
theorem updateChat_cross_chat_mutation :
    (updateChat (Store.mk
        [Chat.mk "chatA" "alice" false 0, Chat.mk "chatM" "mallory" false 1,
         Chat.mk "chatP" "alice" true 2]
        [Message.mk "msg1" "chatA" MessageType.USER]
        [Snippet.mk "msg1" SnippetType.TEXT "hello" 1])
        "mallory" "chatM" "msg1" "pwned" false).1 = 200 ∧
    (updateChat (Store.mk
        [Chat.mk "chatA" "alice" false 0, Chat.mk "chatM" "mallory" false 1,
         Chat.mk "chatP" "alice" true 2]
        [Message.mk "msg1" "chatA" MessageType.USER]
        [Snippet.mk "msg1" SnippetType.TEXT "hello" 1])
        "mallory" "chatM" "msg1" "pwned" false).2.snippets =
      [Snippet.mk "msg1" SnippetType.TEXT "pwned" 1] ∧
    (generateResponseFromPrompt (Store.mk
        [Chat.mk "chatA" "alice" false 0, Chat.mk "chatM" "mallory" false 1,
         Chat.mk "chatP" "alice" true 2]
        [Message.mk "msg1" "chatA" MessageType.USER]
        [Snippet.mk "msg1" SnippetType.TEXT "hello" 1])
        "mallory" "chatP" "hi" "yo" "mu1" "mb1").1 = 200 ∧
    (generateResponseFromPrompt (Store.mk
        [Chat.mk "chatA" "alice" false 0, Chat.mk "chatM" "mallory" false 1,
         Chat.mk "chatP" "alice" true 2]
        [Message.mk "msg1" "chatA" MessageType.USER]
        [Snippet.mk "msg1" SnippetType.TEXT "hello" 1])
        "mallory" "chatP" "hi" "yo" "mu1" "mb1").2.messages ≠
      [Message.mk "msg1" "chatA" MessageType.USER] := by
  decide

end Jamflow
